import Mathlib

/-
Shallow embedding of src/process_controller/controller.py (the current
implementation of the ProcessController class, the one exercised by the
tests).  The psutil layer is modelled as an oracle environment: each OS
interaction the Python code performs is answered by a field of the
environment, so a run of a method is a pure function of (environment,
handle state).  Machine floats that the code only ever compares for
equality (creation timestamps) are modelled as Int; the rounded memory
value is modelled over Rat.
-/

namespace ProcCtrl

/-- Process status as reported by the OS layer (psutil status strings,
used by the code only to compare against the zombie constant). -/
inductive Status where
  | running
  | sleeping
  | stopped
  | zombie
  | dead
  | other
deriving DecidableEq

/-- Oracle answers for the queries the code makes on a live psutil
Process object: create_time(), is_running(), status(), cpu_percent(),
memory_info().rss. -/
structure ProcInfo where
  create_time : Int
  running : Bool
  status : Status
  cpu_percent : Int
  rss : Nat
deriving DecidableEq

/-- Outcome of psutil.Process(pid) together with the create_time() read
inside get_process: the process is found with the given answers, or the
constructor and read raise NoSuchProcess, or they raise AccessDenied. -/
inductive Lookup where
  | found (p : ProcInfo)
  | noSuchProcess
  | accessDenied
deriving DecidableEq

/-- The handle state: controller.py stores only pid and create_time. -/
structure ProcessController where
  pid : Int
  create_time : Int
deriving DecidableEq

/-- ProcessController.get_process: look the pid up; on NoSuchProcess or
AccessDenied return None (the AccessDenied branch additionally prints a
warning); if found, return the process only when its create_time equals
the stored one, guarding against pid reuse. -/
def get_process (os : Int → Lookup) (self : ProcessController) : Option ProcInfo :=
  match os self.pid with
  | Lookup.found p => if p.create_time = self.create_time then some p else none
  | Lookup.noSuchProcess => none
  | Lookup.accessDenied => none

/-- ProcessController.is_running: resolve, then require is_running() and
a status different from STATUS_ZOMBIE. -/
def is_running (os : Int → Lookup) (self : ProcessController) : Bool :=
  match get_process os self with
  | some p => p.running && decide (p.status ≠ Status.zombie)
  | none => false

/-- Python runtime values, as far as the argument validation in the code
can distinguish them.  Numeric payloads are modelled as Int; only the
isinstance checks and equality matter to the claims. -/
inductive PyVal where
  | vint (n : Int)
  | vfloat (n : Int)
  | vbool (b : Bool)
  | vstr (s : String)
  | vnone
deriving DecidableEq

/-- Python isinstance(x, (float, int)).  In Python, bool is a subclass
of int, so booleans satisfy this check. -/
def isinstance_number : PyVal → Bool
  | PyVal.vint _ => true
  | PyVal.vfloat _ => true
  | PyVal.vbool _ => true
  | _ => false

/-- Python isinstance(x, bool). -/
def isinstance_bool : PyVal → Bool
  | PyVal.vbool _ => true
  | _ => false

/-- The numeric value of a Python number, for the comparison psutil
performs on the interval.  True and False are the integers 1 and 0. -/
def py_num_val : PyVal → Int
  | PyVal.vint n => n
  | PyVal.vfloat n => n
  | PyVal.vbool b => if b then 1 else 0
  | _ => 0

/-- The psutil Process.cpu_percent call: psutil raises
ValueError (interval is not positive) when the interval is negative,
and otherwise returns the sampled percentage; the sample itself is an
oracle answer carried by ProcInfo. -/
def cpu_percent (p : ProcInfo) (interval : PyVal) : Except String Int :=
  if py_num_val interval < 0 then
    Except.error "interval is not positive"
  else Except.ok p.cpu_percent

/-- ProcessController.get_cpu_usage: reject a non-number interval with a
TypeError before any OS interaction; otherwise resolve and, only when
the process is present, call cpu_percent with the interval — whose
ValueError for a negative interval propagates to the caller — and
return None when the process is absent. -/
def get_cpu_usage (os : Int → Lookup) (self : ProcessController)
    (interval : PyVal) : Except String (Option Int) :=
  if isinstance_number interval = false then
    Except.error "The interval must be a number (float or int)"
  else
    match get_process os self with
    | some p => (cpu_percent p interval).map some
    | none => Except.ok none

/-- Rounding to two decimal places.  Python round on floats resolves
exact ties to even; no claim depends on tie behaviour, so the Mathlib
round on rationals is used. -/
def round2 (q : Rat) : Rat := (round (q * 100) : Int) / 100

/-- ProcessController.get_memory_usage_mb: resolve, then convert the
resident set size from bytes to megabytes rounded to 2 decimals, or
None when the process is absent. -/
def get_memory_usage_mb (os : Int → Lookup) (self : ProcessController) :
    Option Rat :=
  match get_process os self with
  | some p => some (round2 ((p.rss : Rat) / (1024 * 1024)))
  | none => none

/-- Outcome of the process.terminate() call inside close: it returns
normally, or raises NoSuchProcess, or raises AccessDenied (the latter
covers the other psutil errors the code catches in the same clause). -/
inductive SignalOutcome where
  | ok
  | noSuchProcess
  | accessDenied
deriving DecidableEq

/-- Outcome of the process.wait(timeout=5) call inside close. -/
inductive WaitOutcome where
  | exited
  | noSuchProcess
  | timedOut
  | accessDenied
deriving DecidableEq

/-- Environment for one run of close: the OS table used by get_process,
and the oracle answers for the terminate, wait and post-kill status
calls. -/
structure TermEnv where
  os : Int → Lookup
  terminateOutcome : SignalOutcome
  waitOutcome : WaitOutcome
  statusAfterKill : Status

/-- The wait timeout passed to process.wait in close, in seconds. -/
def close_wait_timeout_seconds : Nat := 5

/-- Instrumented result of close: the boolean the Python code returns,
plus ghost flags recording whether the terminate() and kill() calls
were made. -/
structure CloseResult where
  success : Bool
  sentTerminate : Bool
  sentKill : Bool
deriving DecidableEq

/-- ProcessController.close: resolve; if absent return True.  Otherwise
call terminate() and wait(timeout=5).  NoSuchProcess from either call
returns True; AccessDenied and the other caught psutil errors return
False; on TimeoutExpired call kill() and return False unless the status
is now zombie, in which case fall through to True. -/
def close (env : TermEnv) (self : ProcessController) : CloseResult :=
  match get_process env.os self with
  | none => ⟨true, false, false⟩
  | some _ =>
    match env.terminateOutcome with
    | SignalOutcome.noSuchProcess => ⟨true, true, false⟩
    | SignalOutcome.accessDenied => ⟨false, true, false⟩
    | SignalOutcome.ok =>
      match env.waitOutcome with
      | WaitOutcome.exited => ⟨true, true, false⟩
      | WaitOutcome.noSuchProcess => ⟨true, true, false⟩
      | WaitOutcome.accessDenied => ⟨false, true, false⟩
      | WaitOutcome.timedOut =>
        if env.statusAfterKill ≠ Status.zombie then ⟨false, true, true⟩
        else ⟨true, true, true⟩

/-- ProcessController.terminate: a wrapper around close. -/
def terminate (env : TermEnv) (self : ProcessController) : CloseResult :=
  close env self

/-- n successive calls of terminate on the same handle.  close mutates
neither the handle (only restart does) nor, on an absent process, the
OS table, so each call in the row sees the same environment and state. -/
def repeated_terminate (env : TermEnv) (self : ProcessController) :
    Nat → List CloseResult
  | 0 => []
  | n + 1 => terminate env self :: repeated_terminate env self n

/-- ProcessController.terminate_after, up to its synchronous part: the
two isinstance validations, raised before the worker thread is started.
An ok result means validation passed and the thread was started; the
delayed termination itself runs asynchronously and is not modelled (in
particular, the ValueError a negative delay provokes inside time.sleep
happens on the worker thread, never synchronously in this call). -/
def terminate_after (delay : PyVal) (daemon : PyVal) : Except String Unit :=
  if isinstance_number delay = false then
    Except.error "The delay must be a number (float or int)"
  else if isinstance_bool daemon = false then
    Except.error "daemon value must be a boolean."
  else Except.ok ()

/-- The attribute snapshot process.info that find_processes fetches for
each enumerated process: an association from attribute name to value. -/
def Info : Type := List (String × PyVal)

/-- One process as seen by the enumeration in find_processes: its info
snapshot, the pid and create_time that from_process would capture, and
whether from_process raises NoSuchProcess or AccessDenied (the process
vanished or became inaccessible between enumeration and capture, in
which case the code silently skips it). -/
structure ProcEntry where
  info : List (String × PyVal)
  pid : Int
  create_time : Int
  vanished : Bool
deriving DecidableEq

/-- ProcessController.from_process applied to an enumerated process:
capture pid and create_time, or fail when the process vanished. -/
def from_process (e : ProcEntry) : Option ProcessController :=
  if e.vanished then none else some ⟨e.pid, e.create_time⟩

/-- The dict_filter closure built inside find_processes for a dict
filter: every key of the dict must be present in the info mapping and
map to an equal value. -/
def dict_filter (d : List (String × PyVal)) (info : List (String × PyVal)) : Bool :=
  d.all fun kv =>
    match info.lookup kv.1 with
    | some v => decide (v = kv.2)
    | none => false

/-- The filters argument of find_processes as the code distinguishes it:
None, a dict, a callable, or anything else (which raises TypeError). -/
inductive FiltersArg where
  | noneArg
  | dict (d : List (String × PyVal))
  | callable (f : List (String × PyVal) → Bool)
  | invalid

/-- ProcessController.find_processes: None becomes the always-true
predicate, a dict becomes dict_filter, a callable is used as is, and
anything else raises TypeError.  Each enumerated process whose info
passes the predicate is wrapped by from_process, with NoSuchProcess and
AccessDenied during capture skipping the process. -/
def find_processes (procs : List ProcEntry) (filters : FiltersArg) :
    Except String (List ProcessController) :=
  match filters with
  | FiltersArg.invalid => Except.error "filters must be a dict or a callable"
  | _ =>
    let pred : List (String × PyVal) → Bool :=
      match filters with
      | FiltersArg.noneArg => fun _ => true
      | FiltersArg.dict d => dict_filter d
      | FiltersArg.callable f => f
      | FiltersArg.invalid => fun _ => false
    Except.ok (procs.filterMap fun e =>
      if pred e.info then from_process e else none)

/-- Environment for one run of restart: the terminate environment (its
OS table also answers the initial is_running and get_process calls),
the captured cmdline and cwd (none when reading them raises, which the
surrounding except clause turns into a None return), and the identity
of the process psutil.Popen creates (none when Popen raises). -/
structure RestartEnv where
  term : TermEnv
  cmdline_cwd : Option (List String × String)
  spawn : Option (Int × Int)

/-- Instrumented result of restart: the returned value modelled by the
identity of the new process (None on the failure paths), the handle
state after the call, the result of the self.terminate() call (none if
terminate was never reached, some r if the full close protocol ran and
produced r — the code discards r), the arguments Popen was invoked
with (none if Popen was never reached), and whether Popen succeeded. -/
structure RestartResult where
  result : Option (Int × Int)
  state : ProcessController
  terminated : Option CloseResult
  spawn_args : Option (List String × String)
  spawned : Bool
deriving DecidableEq

/-- ProcessController.restart: abort with None if is_running() is false;
re-resolve; capture cmdline and cwd; call self.terminate() — the full
close protocol, whose result the code discards but this embedding
records in the terminated field; immediately call psutil.Popen with the
captured arguments and overwrite pid and create_time with the new
identity.  Any exception from the capture or spawn steps is caught,
printed, and turned into a None return with the handle unchanged. -/
def restart (env : RestartEnv) (self : ProcessController) : RestartResult :=
  if is_running env.term.os self = false then ⟨none, self, none, none, false⟩
  else
    match get_process env.term.os self with
    | none => ⟨none, self, none, none, false⟩
    | some _ =>
      match env.cmdline_cwd with
      | none => ⟨none, self, none, none, false⟩
      | some cc =>
        let t := terminate env.term self
        match env.spawn with
        | none => ⟨none, self, some t, some cc, false⟩
        | some idp => ⟨some idp, ⟨idp.1, idp.2⟩, some t, some cc, true⟩

/-- C1: whenever the OS reports, for the stored pid, a creation
timestamp different from the stored one, resolution returns None and
every query on the handle (is_running, get_cpu_usage with any valid
interval, get_memory_usage_mb) treats the process as absent and never
touches the unrelated process now occupying the pid. -/
theorem recycled_pid_queries_absent (os : Int → Lookup)
    (self : ProcessController) (p : ProcInfo)
    (hfound : os self.pid = Lookup.found p)
    (hne : p.create_time ≠ self.create_time) :
    get_process os self = none ∧
    is_running os self = false ∧
    (∀ interval : PyVal, isinstance_number interval = true →
      get_cpu_usage os self interval = Except.ok none) ∧
    get_memory_usage_mb os self = none := by
  have habs : get_process os self = none := by
    simp [get_process, hfound, hne]
  refine ⟨habs, ?_, ?_, ?_⟩
  · simp [is_running, habs]
  · intro interval hint
    simp [get_cpu_usage, hint, habs]
  · simp [get_memory_usage_mb, habs]

/-- Witness for C1 at a concrete recycled pid: stored timestamp 4, OS
now reports 5 for the same pid. -/
theorem recycled_pid_queries_absent_witness :
    get_process (fun _ => Lookup.found ⟨5, true, Status.running, 12, 2048⟩)
        (⟨3, 4⟩ : ProcessController) = none ∧
    is_running (fun _ => Lookup.found ⟨5, true, Status.running, 12, 2048⟩)
        (⟨3, 4⟩ : ProcessController) = false ∧
    get_cpu_usage (fun _ => Lookup.found ⟨5, true, Status.running, 12, 2048⟩)
        (⟨3, 4⟩ : ProcessController) (PyVal.vfloat 1) = Except.ok none :=
  ⟨(recycled_pid_queries_absent _ _ ⟨5, true, Status.running, 12, 2048⟩ rfl
      (by decide)).1,
   (recycled_pid_queries_absent _ _ ⟨5, true, Status.running, 12, 2048⟩ rfl
      (by decide)).2.1,
   (recycled_pid_queries_absent _ _ ⟨5, true, Status.running, 12, 2048⟩ rfl
      (by decide)).2.2.1 (PyVal.vfloat 1) rfl⟩

/-- C2: on a resolvable process, close sends the graceful terminate
signal and waits with the 5 second timeout; if the wait times out it
sends the kill signal and succeeds exactly when the post-kill status is
zombie; if the wait raises NoSuchProcess it succeeds. -/
theorem terminate_protocol (env : TermEnv) (self : ProcessController)
    (p : ProcInfo) (hres : get_process env.os self = some p) :
    (close env self).sentTerminate = true ∧
    close_wait_timeout_seconds = 5 ∧
    (env.terminateOutcome = SignalOutcome.ok →
      env.waitOutcome = WaitOutcome.timedOut →
        (close env self).sentKill = true ∧
        ((close env self).success = true ↔
          env.statusAfterKill = Status.zombie)) ∧
    (env.terminateOutcome = SignalOutcome.ok →
      env.waitOutcome = WaitOutcome.noSuchProcess →
        (close env self).success = true) := by
  obtain ⟨os, tOut, wOut, st⟩ := env
  simp only [close, hres]
  cases tOut <;> cases wOut <;> cases st <;>
    simp [close_wait_timeout_seconds]

/-- Witness for C2: a resolvable process whose wait times out and whose
post-kill status is zombie. -/
theorem terminate_protocol_witness :
    (close ⟨fun _ => Lookup.found ⟨7, true, Status.running, 0, 0⟩,
        SignalOutcome.ok, WaitOutcome.timedOut, Status.zombie⟩
      (⟨1, 7⟩ : ProcessController)).sentTerminate = true ∧
    close_wait_timeout_seconds = 5 ∧
    (SignalOutcome.ok = SignalOutcome.ok →
      WaitOutcome.timedOut = WaitOutcome.timedOut →
        (close ⟨fun _ => Lookup.found ⟨7, true, Status.running, 0, 0⟩,
            SignalOutcome.ok, WaitOutcome.timedOut, Status.zombie⟩
          (⟨1, 7⟩ : ProcessController)).sentKill = true ∧
        ((close ⟨fun _ => Lookup.found ⟨7, true, Status.running, 0, 0⟩,
            SignalOutcome.ok, WaitOutcome.timedOut, Status.zombie⟩
          (⟨1, 7⟩ : ProcessController)).success = true ↔
          Status.zombie = Status.zombie)) ∧
    (SignalOutcome.ok = SignalOutcome.ok →
      WaitOutcome.timedOut = WaitOutcome.noSuchProcess →
        (close ⟨fun _ => Lookup.found ⟨7, true, Status.running, 0, 0⟩,
            SignalOutcome.ok, WaitOutcome.timedOut, Status.zombie⟩
          (⟨1, 7⟩ : ProcessController)).success = true) :=
  terminate_protocol _ _ ⟨7, true, Status.running, 0, 0⟩ rfl

/-- C3: is_running returns true exactly when resolution succeeds, the OS
reports the process as running, and its status is not zombie; in every
other case it returns false. -/
theorem is_running_characterization (os : Int → Lookup)
    (self : ProcessController) :
    is_running os self = true ↔
      ∃ p, get_process os self = some p ∧ p.running = true ∧
        p.status ≠ Status.zombie := by
  unfold is_running
  cases h : get_process os self <;> simp [h]

/-- C4: restart on a handle that is not running returns None, leaves
pid and create_time unchanged, and reaches neither the terminate call
nor the spawn call. -/
theorem restart_not_running_frame (env : RestartEnv)
    (self : ProcessController)
    (h : is_running env.term.os self = false) :
    restart env self = ⟨none, self, none, none, false⟩ := by
  simp [restart, h]

/-- Witness for C4: the tracked process no longer exists. -/
theorem restart_not_running_frame_witness :
    restart ⟨⟨fun _ => Lookup.noSuchProcess, SignalOutcome.ok,
        WaitOutcome.exited, Status.dead⟩, some (["cmd"], "/srv"),
        some (42, 99)⟩ (⟨1, 2⟩ : ProcessController) =
      ⟨none, ⟨1, 2⟩, none, none, false⟩ :=
  restart_not_running_frame _ _ rfl

/-- C5 counterexample: an environment in which the tracked process is
running, the terminate protocol fails (wait times out and the process
is still in the running state after kill, so close reports failure and
the process is still alive), and restart nevertheless runs the terminate protocol
(recorded in the terminated field, with the failing result), invokes
the spawn immediately and replaces the identity: restart never polls
is_running after terminating, so it does not wait for the process to
stop before spawning. -/
theorem restart_spawns_without_waiting :
    is_running (fun _ => Lookup.found ⟨7, true, Status.running, 0, 0⟩)
      (⟨1, 7⟩ : ProcessController) = true ∧
    (close ⟨fun _ => Lookup.found ⟨7, true, Status.running, 0, 0⟩,
        SignalOutcome.ok, WaitOutcome.timedOut, Status.running⟩
      (⟨1, 7⟩ : ProcessController)).success = false ∧
    (restart ⟨⟨fun _ => Lookup.found ⟨7, true, Status.running, 0, 0⟩,
        SignalOutcome.ok, WaitOutcome.timedOut, Status.running⟩,
        some (["python", "app.py"], "/srv"), some (42, 99)⟩
      (⟨1, 7⟩ : ProcessController)).terminated = some ⟨false, true, true⟩ ∧
    (restart ⟨⟨fun _ => Lookup.found ⟨7, true, Status.running, 0, 0⟩,
        SignalOutcome.ok, WaitOutcome.timedOut, Status.running⟩,
        some (["python", "app.py"], "/srv"), some (42, 99)⟩
      (⟨1, 7⟩ : ProcessController)).spawned = true ∧
    (restart ⟨⟨fun _ => Lookup.found ⟨7, true, Status.running, 0, 0⟩,
        SignalOutcome.ok, WaitOutcome.timedOut, Status.running⟩,
        some (["python", "app.py"], "/srv"), some (42, 99)⟩
      (⟨1, 7⟩ : ProcessController)).state = ⟨42, 99⟩ :=
  ⟨rfl, rfl, rfl, rfl, rfl⟩

/-- C5 amended: restart on a running handle, when capturing cmdline and
cwd succeeds and the spawn succeeds, runs the full terminate protocol
(the close run on the same handle, recorded in the terminated field,
its result discarded) and then immediately spawns with the captured
cmdline and cwd and replaces pid and create_time with the new identity
— regardless of whether the terminate succeeded, and without any poll
of is_running in between. -/
theorem restart_running_spawns_immediately (env : RestartEnv)
    (self : ProcessController) (cc : List String × String)
    (idp : Int × Int)
    (hrun : is_running env.term.os self = true)
    (hcc : env.cmdline_cwd = some cc)
    (hspawn : env.spawn = some idp) :
    restart env self = ⟨some idp, ⟨idp.1, idp.2⟩,
      some (terminate env.term self), some cc, true⟩ := by
  obtain ⟨p, hp⟩ : ∃ p, get_process env.term.os self = some p := by
    unfold is_running at hrun
    cases h : get_process env.term.os self
    · rw [h] at hrun; simp at hrun
    · exact ⟨_, rfl⟩
  simp [restart, hrun, hp, hcc, hspawn]

/-- Witness for the amended C5 at a concrete running process. -/
theorem restart_running_spawns_immediately_witness :
    restart ⟨⟨fun _ => Lookup.found ⟨7, true, Status.sleeping, 0, 0⟩,
        SignalOutcome.ok, WaitOutcome.exited, Status.dead⟩,
        some (["python", "app.py"], "/srv"), some (42, 99)⟩
      (⟨1, 7⟩ : ProcessController) =
      ⟨some (42, 99), ⟨42, 99⟩,
        some (terminate ⟨fun _ => Lookup.found ⟨7, true, Status.sleeping, 0, 0⟩,
          SignalOutcome.ok, WaitOutcome.exited, Status.dead⟩ ⟨1, 7⟩),
        some (["python", "app.py"], "/srv"), true⟩ :=
  restart_running_spawns_immediately _ _ (["python", "app.py"], "/srv")
    (42, 99) rfl rfl rfl

/-- C6: when resolution returns absence, terminate returns success, and
any number of successive terminate calls on the handle (whose state and
environment the call does not change) all return success. -/
theorem terminate_absent_idempotent (env : TermEnv)
    (self : ProcessController)
    (h : get_process env.os self = none) :
    (terminate env self).success = true ∧
    ∀ n : Nat,
      (repeated_terminate env self n).all (fun r => r.success) = true := by
  have h1 : terminate env self = ⟨true, false, false⟩ := by
    simp [terminate, close, h]
  refine ⟨by simp [h1], ?_⟩
  intro n
  induction n with
  | zero => simp [repeated_terminate]
  | succ k ih => simp [repeated_terminate, h1, ih]

/-- Witness for C6: three successive terminate calls on a gone process
all succeed. -/
theorem terminate_absent_idempotent_witness :
    (terminate ⟨fun _ => Lookup.noSuchProcess, SignalOutcome.ok,
        WaitOutcome.exited, Status.dead⟩
      (⟨1, 2⟩ : ProcessController)).success = true ∧
    (repeated_terminate ⟨fun _ => Lookup.noSuchProcess, SignalOutcome.ok,
        WaitOutcome.exited, Status.dead⟩
      (⟨1, 2⟩ : ProcessController) 3).all (fun r => r.success) = true :=
  ⟨(terminate_absent_idempotent ⟨fun _ => Lookup.noSuchProcess,
      SignalOutcome.ok, WaitOutcome.exited, Status.dead⟩ ⟨1, 2⟩ rfl).1,
   (terminate_absent_idempotent ⟨fun _ => Lookup.noSuchProcess,
      SignalOutcome.ok, WaitOutcome.exited, Status.dead⟩ ⟨1, 2⟩ rfl).2 3⟩

/-- C7 counterexample: a negative delay passes the isinstance
validation of terminate_after, which returns normally instead of
raising; a negative interval passes the isinstance validation of
get_cpu_usage, which on an absent process returns None without any
error and on a resolvable process raises the ValueError coming from
the psutil cpu_percent call — after resolution, not the synchronous
InvalidArgument TypeError the claim requires before any OS
interaction. -/
theorem negative_arguments_not_rejected :
    terminate_after (PyVal.vint (-5)) (PyVal.vbool false) = Except.ok () ∧
    get_cpu_usage (fun _ => Lookup.noSuchProcess)
        (⟨1, 2⟩ : ProcessController) (PyVal.vint (-1)) = Except.ok none ∧
    get_cpu_usage (fun _ => Lookup.found ⟨7, true, Status.running, 12, 0⟩)
        (⟨1, 7⟩ : ProcessController) (PyVal.vint (-1)) =
      Except.error "interval is not positive" :=
  ⟨rfl, rfl, rfl⟩

/-- C7 amended: the validation the controller itself performs on
interval, delay and daemon checks the type only, before any OS
interaction: a non-number interval or delay and a non-boolean daemon
flag raise the TypeError, while negative numbers pass that validation —
terminate_after with any integer delay returns normally, get_cpu_usage
never raises the interval TypeError for an integer interval, returns
None for an absent process even with a negative interval, and for a
resolvable process with a negative interval raises only the ValueError
from inside the psutil cpu_percent call, after resolution. -/
theorem argument_validation_type_only (os : Int → Lookup)
    (self : ProcessController) (v d dm : PyVal) :
    (isinstance_number v = false →
      get_cpu_usage os self v =
        Except.error "The interval must be a number (float or int)") ∧
    (isinstance_number d = false →
      terminate_after d dm =
        Except.error "The delay must be a number (float or int)") ∧
    (isinstance_number d = true → isinstance_bool dm = false →
      terminate_after d dm =
        Except.error "daemon value must be a boolean.") ∧
    (∀ n : Int, ∀ b : Bool,
      terminate_after (PyVal.vint n) (PyVal.vbool b) = Except.ok ()) ∧
    (∀ n : Int, get_cpu_usage os self (PyVal.vint n) ≠
      Except.error "The interval must be a number (float or int)") ∧
    (∀ n : Int, get_process os self = none →
      get_cpu_usage os self (PyVal.vint n) = Except.ok none) ∧
    (∀ n : Int, ∀ p : ProcInfo, n < 0 → get_process os self = some p →
      get_cpu_usage os self (PyVal.vint n) =
        Except.error "interval is not positive") := by
  refine ⟨?_, ?_, ?_, ?_, ?_, ?_, ?_⟩
  · intro h; simp [get_cpu_usage, h]
  · intro h; simp [terminate_after, h]
  · intro h1 h2; simp [terminate_after, h1, h2]
  · intro n b
    simp [terminate_after, isinstance_number, isinstance_bool]
  · intro n
    cases hg : get_process os self with
    | none => simp [get_cpu_usage, isinstance_number, hg]
    | some p =>
      by_cases hneg : (n : Int) < 0 <;>
        simp [get_cpu_usage, isinstance_number, hg, cpu_percent,
          py_num_val, hneg, Except.map]
  · intro n hg
    simp [get_cpu_usage, isinstance_number, hg]
  · intro n p hneg hg
    simp [get_cpu_usage, isinstance_number, hg, cpu_percent, py_num_val,
      hneg, Except.map]

/-- Witness for the amended C7: a string interval raises the TypeError,
a negative delay with a boolean daemon flag passes, and a negative
interval on a resolvable process raises the psutil ValueError. -/
theorem argument_validation_type_only_witness :
    get_cpu_usage (fun _ => Lookup.noSuchProcess)
        (⟨1, 2⟩ : ProcessController) (PyVal.vstr "x") =
      Except.error "The interval must be a number (float or int)" ∧
    terminate_after (PyVal.vint (-3)) (PyVal.vbool true) = Except.ok () ∧
    get_cpu_usage (fun _ => Lookup.found ⟨2, true, Status.running, 12, 0⟩)
        (⟨1, 2⟩ : ProcessController) (PyVal.vint (-1)) =
      Except.error "interval is not positive" :=
  ⟨(argument_validation_type_only (fun _ => Lookup.noSuchProcess) ⟨1, 2⟩
      (PyVal.vstr "x") (PyVal.vint (-3)) (PyVal.vbool true)).1 rfl,
   (argument_validation_type_only (fun _ => Lookup.noSuchProcess) ⟨1, 2⟩
      (PyVal.vstr "x") (PyVal.vint (-3)) (PyVal.vbool true)).2.2.2.1
     (-3) true,
   (argument_validation_type_only
      (fun _ => Lookup.found ⟨2, true, Status.running, 12, 0⟩) ⟨1, 2⟩
      (PyVal.vstr "x") (PyVal.vint (-3)) (PyVal.vbool true)).2.2.2.2.2.2
     (-1) ⟨2, true, Status.running, 12, 0⟩ (by decide) rfl⟩

/-- C8: the dict filter matches exactly when every key of the mapping is
present in the attribute set with an equal value (an absent key
excludes); a non-vanished enumerated process is in the dict-filtered
output exactly when its attributes match; with no filter every
non-vanished process is included; an invalid filter raises TypeError. -/
theorem find_processes_filter_semantics (procs : List ProcEntry)
    (d : List (String × PyVal)) :
    (∀ info : List (String × PyVal),
      dict_filter d info = true ↔
        ∀ kv ∈ d, info.lookup kv.1 = some kv.2) ∧
    (∀ out, find_processes procs (FiltersArg.dict d) = Except.ok out →
      ∀ c : ProcessController,
        c ∈ out ↔ ∃ e ∈ procs, e.vanished = false ∧
          dict_filter d e.info = true ∧ c = ⟨e.pid, e.create_time⟩) ∧
    (∀ out, find_processes procs FiltersArg.noneArg = Except.ok out →
      ∀ e ∈ procs, e.vanished = false →
        (⟨e.pid, e.create_time⟩ : ProcessController) ∈ out) ∧
    find_processes procs FiltersArg.invalid =
      Except.error "filters must be a dict or a callable" := by
  refine ⟨?_, ?_, ?_, rfl⟩
  · intro info
    unfold dict_filter
    rw [List.all_eq_true]
    constructor
    · intro h kv hkv
      have := h kv hkv
      cases hl : info.lookup kv.1 <;> rw [hl] at this <;> simp_all
    · intro h kv hkv
      rw [h kv hkv]
      simp
  · intro out hout c
    have : out = procs.filterMap fun e =>
        if dict_filter d e.info then from_process e else none := by
      simpa [find_processes] using hout.symm
    subst this
    rw [List.mem_filterMap]
    constructor
    · rintro ⟨e, he, hfe⟩
      refine ⟨e, he, ?_⟩
      by_cases hd : dict_filter d e.info = true
      · rw [if_pos hd] at hfe
        unfold from_process at hfe
        by_cases hv : e.vanished = true
        · rw [if_pos hv] at hfe; exact absurd hfe (by simp)
        · rw [if_neg hv] at hfe
          exact ⟨by simpa using hv, hd, by simpa using hfe.symm⟩
      · rw [if_neg hd] at hfe
        exact absurd hfe (by simp)
    · rintro ⟨e, he, hv, hd, hc⟩
      exact ⟨e, he, by simp [hd, from_process, hv, hc]⟩
  · intro out hout e he hv
    have : out = procs.filterMap fun e =>
        if (true : Bool) then from_process e else none := by
      simpa [find_processes] using hout.symm
    subst this
    rw [List.mem_filterMap]
    exact ⟨e, he, by simp [from_process, hv]⟩

/-- Witness for C8: an invalid filter on an empty process table raises
the TypeError. -/
theorem find_processes_filter_semantics_witness :
    find_processes [] FiltersArg.invalid =
      Except.error "filters must be a dict or a callable" :=
  (find_processes_filter_semantics [] []).2.2.2

/-- C9: when the OS denies access to the metadata of the stored pid,
resolution converts the denial to absence, so close returns success for
a process that may still be alive, without sending any signal. -/
theorem access_denied_close_success (env : TermEnv)
    (self : ProcessController)
    (h : env.os self.pid = Lookup.accessDenied) :
    get_process env.os self = none ∧
    (close env self).success = true ∧
    (close env self).sentTerminate = false ∧
    (close env self).sentKill = false := by
  have hg : get_process env.os self = none := by simp [get_process, h]
  exact ⟨hg, by simp [close, hg], by simp [close, hg], by simp [close, hg]⟩

/-- Witness for C9: access to every pid is denied. -/
theorem access_denied_close_success_witness :
    get_process (fun _ => Lookup.accessDenied)
        (⟨1, 2⟩ : ProcessController) = none ∧
    (close ⟨fun _ => Lookup.accessDenied, SignalOutcome.ok,
        WaitOutcome.exited, Status.running⟩
      (⟨1, 2⟩ : ProcessController)).success = true ∧
    (close ⟨fun _ => Lookup.accessDenied, SignalOutcome.ok,
        WaitOutcome.exited, Status.running⟩
      (⟨1, 2⟩ : ProcessController)).sentTerminate = false ∧
    (close ⟨fun _ => Lookup.accessDenied, SignalOutcome.ok,
        WaitOutcome.exited, Status.running⟩
      (⟨1, 2⟩ : ProcessController)).sentKill = false :=
  access_denied_close_success ⟨fun _ => Lookup.accessDenied,
    SignalOutcome.ok, WaitOutcome.exited, Status.running⟩ ⟨1, 2⟩ rfl

/-- C10: booleans pass the numeric argument validation, because bool is
a subclass of int in Python: get_cpu_usage with a boolean interval does
not raise the TypeError, and terminate_after with a boolean delay
passes validation. -/
theorem boolean_passes_numeric_validation (os : Int → Lookup)
    (self : ProcessController) (b b2 : Bool) :
    (∃ r : Option Int,
      get_cpu_usage os self (PyVal.vbool b) = Except.ok r) ∧
    terminate_after (PyVal.vbool b) (PyVal.vbool b2) = Except.ok () := by
  constructor
  · cases hg : get_process os self with
    | none => exact ⟨none, by simp [get_cpu_usage, isinstance_number, hg]⟩
    | some p =>
      exact ⟨some p.cpu_percent, by
        cases b <;>
          simp [get_cpu_usage, isinstance_number, hg, cpu_percent,
            py_num_val, Except.map]⟩
  · simp [terminate_after, isinstance_number, isinstance_bool]

end ProcCtrl
